import Mathlib

/-!
Shallow embedding of `src/main.py` of the tds-project-one repository, a
task-automation HTTP service, together with proofs about the claims of its
natural-language specification.

The embedding models: the keyword dispatcher `handle_task`, the pure handlers
`handle_count_wednesdays`, `handle_sort_contacts`, `handle_similar_comments`
and `handle_ticket_sales`, the HTTP front endpoints `run_task` and
`read_file`, and the library routines they call (`datetime.strptime` with
format `%Y-%m-%d`, `datetime.weekday`, Python stable `sorted`,
`difflib.SequenceMatcher.ratio`, SQLite `SUM`).  Python string primitives
(substring test, `lower`, `strip`, `split`, comparison) are implemented
structurally over `String.data` so that every definition evaluates inside
the kernel.  Handlers whose behaviour is determined by subprocesses, the
network, or directory listings (datagen, format, recent logs, extract
headers/email/card) are represented by an environment-supplied outcome; no
claim depends on their internals.  `SequenceMatcher.ratio()` returns an IEEE
double; the model computes the same quotient in `ℚ`, exact for every value
compared here.
-/

set_option maxRecDepth 40000

deriving instance DecidableEq for Except

namespace Agent

/-- Character-list substring test: `containsSub h n` is true when `n` occurs
contiguously inside `h`. -/
def containsSub (h n : List Char) : Bool :=
  match h with
  | [] => n.isEmpty
  | c :: t => n.isPrefixOf (c :: t) || containsSub t n

/-- The Python expression `n in h` on strings. -/
def pyIn (n h : String) : Bool := containsSub h.data n.data

/-- The Python method `str.lower()`.  `Char.toLower` lowercases exactly the
ASCII letters, which agrees with Python on every ASCII character; all the
dispatcher keywords are ASCII. -/
def pyLower (s : String) : String := ⟨s.data.map Char.toLower⟩

/-- The characters removed by Python `str.strip()` with no argument (the
ASCII whitespace characters; Python also strips a few Unicode space
characters, which never occur in the inputs considered here). -/
def isPySpace (c : Char) : Bool :=
  c = ' ' || c = '\t' || c = '\n' || c = '\r' || c = '\x0b' || c = '\x0c'

/-- The Python method `str.strip()`: drop whitespace from both ends. -/
def pyStrip (s : String) : String :=
  ⟨((s.data.dropWhile isPySpace).reverse.dropWhile isPySpace).reverse⟩

/-- Split a character list at every occurrence of the separator `sep`;
the result always has one more piece than there are separators, so a
trailing separator yields a final empty piece.  Models Python
`str.split(sep)` for a one-character separator. -/
def splitOnChar (sep : Char) : List Char → List (List Char)
  | [] => [[]]
  | c :: t =>
    if c = sep then [] :: splitOnChar sep t
    else
      match splitOnChar sep t with
      | h :: r => (c :: h) :: r
      | [] => [[c]]

/-- The lines of a file's text, as Python `for line in f` yields them after
each is stripped: splitting at newlines.  A trailing newline contributes a
final empty piece which every consumer in `src/main.py` skips as blank. -/
def pyLines (s : String) : List String := (splitOnChar '\n' s.data).map fun l => ⟨l⟩

/-- The Python method `str.startswith(pre)`. -/
def pyStartsWith (s pre : String) : Bool := pre.data.isPrefixOf s.data

/-- Numeric value of a list of decimal digit characters. -/
def digitsToNat (l : List Char) : Nat :=
  l.foldl (fun n c => 10 * n + (c.toNat - '0'.toNat)) 0

/-- True when the list is nonempty and consists only of decimal digits. -/
def allDigits (l : List Char) : Bool := !l.isEmpty && l.all Char.isDigit

/-- Leap-year rule used by Python `datetime` (proleptic Gregorian). -/
def isLeap (y : Nat) : Bool := (y % 4 == 0 && y % 100 != 0) || y % 400 == 0

/-- Number of days in month `m` of year `y` (Gregorian). -/
def daysInMonth (y m : Nat) : Nat :=
  if m == 2 then (if isLeap y then 29 else 28)
  else if m == 4 || m == 6 || m == 9 || m == 11 then 30
  else 31

/-- A calendar date as validated by `datetime`. -/
structure Date where
  year : Nat
  month : Nat
  day : Nat
deriving DecidableEq, Repr

/-- Models `datetime.strptime(s, "%Y-%m-%d")` from `handle_count_wednesdays`:
the year field is exactly four digits, the month and day fields are one or
two digits (CPython `_strptime` regexes, which also bound them by 12 and 31),
the separator is a literal `-`, the whole string must be consumed, and the
`datetime` constructor then checks `1 <= year` and that the day fits the
month. -/
def parseDate (s : String) : Option Date :=
  match splitOnChar '-' s.data with
  | [ys, ms, ds] =>
    if allDigits ys && ys.length == 4 && allDigits ms && ms.length ≤ 2
        && allDigits ds && ds.length ≤ 2 then
      if 1 ≤ digitsToNat ys && 1 ≤ digitsToNat ms && digitsToNat ms ≤ 12
          && 1 ≤ digitsToNat ds
          && digitsToNat ds ≤ daysInMonth (digitsToNat ys) (digitsToNat ms) then
        some ⟨digitsToNat ys, digitsToNat ms, digitsToNat ds⟩
      else none
    else none
  | _ => none

/-- Days of year `d.year` strictly before month `d.month`, plus `d.day`. -/
def dayOfYear (d : Date) : Nat :=
  (List.range (d.month - 1)).foldl (fun acc i => acc + daysInMonth d.year (i + 1)) 0 + d.day

/-- Proleptic Gregorian day number: 0001-01-01 is day 1. -/
def rataDie (d : Date) : Nat :=
  365 * (d.year - 1) + (d.year - 1) / 4 - (d.year - 1) / 100 + (d.year - 1) / 400
    + dayOfYear d

/-- Models Python `datetime.weekday()`: Monday = 0, …, Sunday = 6.
0001-01-01 (day number 1) is a Monday. -/
def pyWeekday (d : Date) : Nat := (rataDie d + 6) % 7

/-- The counting loop of `handle_count_wednesdays` (src/main.py lines
105-118): strip each line, skip blank lines, try to parse the line as
`%Y-%m-%d`, skip lines that fail to parse, and count the dates whose weekday
is 2 (Wednesday). -/
def count_wednesdays : List String → Nat
  | [] => 0
  | raw :: rest =>
    if (pyStrip raw).data.isEmpty then count_wednesdays rest
    else
      match parseDate (pyStrip raw) with
      | some d => (if pyWeekday d == 2 then 1 else 0) + count_wednesdays rest
      | none => count_wednesdays rest

/-- The exceptions raised inside `src/main.py`: `ValueError` (unknown task)
and FastAPI `HTTPException` with a status code and a detail string.  FastAPI's
`HTTPException` is not a `ValueError`; both derive from `Exception`. -/
inductive PyErr where
  | valueError (msg : String)
  | httpException (statusCode : Nat) (detail : String)
deriving DecidableEq

/-- A contact record from `/data/contacts.json`: the two fields used by the
sort key, both optional (`x.get(key, '')` in the source), plus the remaining
key/value pairs of the JSON object, which the sort never inspects. -/
structure Contact where
  firstName : Option String
  lastName : Option String
  extra : List (String × String)
deriving DecidableEq, Repr

/-- The sort key of `handle_sort_contacts`: the Python tuple
`(x.get('last_name', ''), x.get('first_name', ''))`. -/
def ckey (c : Contact) : String × String := (c.lastName.getD "", c.firstName.getD "")

/-- Python string `<`: lexicographic comparison of the code points, a proper
prefix preceding its extensions. -/
def lexLtb : List Char → List Char → Bool
  | [], [] => false
  | [], _ :: _ => true
  | _ :: _, [] => false
  | a :: as, b :: bs => if a < b then true else if b < a then false else lexLtb as bs

/-- Python tuple comparison `key(c) <= key(d)` for the contact sort key:
last names compared first, first names break ties; a missing field is the
empty string.  (`x <= y` on strings is `x < y or x = y`.) -/
def contactLeB (c d : Contact) : Bool :=
  lexLtb (ckey c).1.data (ckey d).1.data
  || ((ckey c).1.data == (ckey d).1.data
      && (lexLtb (ckey c).2.data (ckey d).2.data || (ckey c).2.data == (ckey d).2.data))

/-- The key order as a decidable relation, for `List.insertionSort`. -/
def contactR (c d : Contact) : Prop := contactLeB c d = true

instance : DecidableRel contactR := fun c d => inferInstanceAs (Decidable (_ = true))

/-- Python `sorted(contacts, key=...)` is the stable sort by the key order;
`List.insertionSort` is the stable sort of the Lean library, so the two
agree on every input. -/
def sorted_contacts (cs : List Contact) : List Contact := cs.insertionSort contactR

/-- A row of the SQLite `tickets` table (`type`, `units`, `price`). -/
structure TicketRow where
  type : String
  units : Int
  price : Int
deriving DecidableEq, Repr

/-- Models `SELECT SUM(units * price) FROM tickets WHERE type = 'Gold'`:
SQLite `SUM` over an empty set of rows is NULL (here `none`), otherwise the
sum of `units * price` over the matching rows. -/
def sumGold (rows : List TicketRow) : Option Int :=
  if (rows.filter (fun r => r.type == "Gold")).isEmpty then none
  else some (((rows.filter (fun r => r.type == "Gold")).map (fun r => r.units * r.price)).sum)

/-- Python `str` applied to the fetched SQL aggregate: `str(None)` is the
literal string `None`. -/
def pyStrOfSum : Option Int → String
  | none => "None"
  | some n => toString n

/-- Length of the common run of equal characters at the heads of `a` and `b`. -/
def runLen : List Char → List Char → Nat
  | a :: as, b :: bs => if a == b then runLen as bs + 1 else 0
  | _, _ => 0

/-- Models `difflib.SequenceMatcher.find_longest_match` over whole sequences
(no junk: the inputs here are far below the 200-character autojunk
threshold): the longest common contiguous block, ties resolved toward the
smallest start in `a`, then the smallest start in `b`, exactly the block the
CPython scan (outer index ascending, inner ascending, strict improvement)
reports.  Returns `(start in a, start in b, length)`. -/
def bestBlock (a b : List Char) : Nat × Nat × Nat :=
  (List.range a.length).foldl (fun acc i =>
    (List.range b.length).foldl (fun acc j =>
      let k := runLen (a.drop i) (b.drop j)
      if acc.2.2 < k then (i, j, k) else acc) acc) (0, 0, 0)

/-- Total size of the matching blocks of `difflib.get_matching_blocks`:
recursively take the longest match and recurse on the pieces to its left and
to its right.  The fuel argument only bounds the recursion depth, which never
exceeds `a.length + 1` since each recursive call strictly shortens `a`. -/
def matchTotalF : Nat → List Char → List Char → Nat
  | 0, _, _ => 0
  | fuel + 1, a, b =>
    let ijk := bestBlock a b
    if ijk.2.2 == 0 then 0
    else
      ijk.2.2 + matchTotalF fuel (a.take ijk.1) (b.take ijk.2.1)
        + matchTotalF fuel (a.drop (ijk.1 + ijk.2.2)) (b.drop (ijk.2.1 + ijk.2.2))

/-- Total matched characters between `a` and `b`, with enough fuel. -/
def matchTotal (a b : List Char) : Nat := matchTotalF (a.length + 1) a b

/-- Models `difflib.SequenceMatcher(None, a, b).ratio()`:
`2 * M / (len(a) + len(b))` where `M` is the total matched size, and 1 when
both strings are empty (CPython `_calculate_ratio`). -/
def ratioChars (a b : List Char) : ℚ :=
  if a.length + b.length == 0 then 1
  else (2 * (matchTotal a b : ℚ)) / ((a.length : ℚ) + (b.length : ℚ))

/-- The similarity ratio on strings, as called in `handle_similar_comments`. -/
def ratioStrings (x y : String) : ℚ := ratioChars x.data y.data

/-- The unordered pairs `(comments[i], comments[j])`, `i < j`, in the exact
scan order of the nested loops of `handle_similar_comments`. -/
def scanPairs : List String → List (String × String)
  | [] => []
  | c :: rest => rest.map (fun d => (c, d)) ++ scanPairs rest

/-- One iteration of the selection loop: update the best pair only on a
strictly larger ratio (`if ratio > best_ratio` in the source). -/
def stepPair : ℚ × String × String → String × String → ℚ × String × String
  | (best, b1, b2), (x, y) =>
    if best < ratioStrings x y then (ratioStrings x y, x, y) else (best, b1, b2)

/-- The full selection loop of `handle_similar_comments`, starting from
`best_ratio = 0`, `best_pair = ("", "")`. -/
def bestPair (cs : List String) : ℚ × String × String :=
  (scanPairs cs).foldl stepPair (0, "", "")

/-- The comment lines read by `handle_similar_comments`:
`[line.strip() for line in f if line.strip()]`. -/
def commentsOf (content : String) : List String :=
  ((pyLines content).map pyStrip).filter (fun l => !l.data.isEmpty)

/-- The largest similarity ratio over a list of pairs (0 for the empty
list, matching the loop's initial `best_ratio = 0`).  Specification-side
yardstick for the selection loop. -/
def maxRL : List (String × String) → ℚ
  | [] => 0
  | p :: t => max (ratioStrings p.1 p.2) (maxRL t)

/-- Content written to a handler's fixed output file.  The JSON serialization
of the sorted contacts array is kept symbolic (the `json` library is external
to the repository); what the file records is the array in sorted order. -/
inductive FileData where
  | text (s : String)
  | jsonContacts (cs : List Contact)
deriving DecidableEq

/-- The handler-specific success payload returned to `run_task`. -/
inductive TaskResult where
  | countWednesdays (count : Nat)
  | sortContacts (contactsSorted : Nat)
  | similarComments (r : ℚ)
  | ticketSales (totalSales : Option Int)
  | external
deriving DecidableEq

/-- What a successful handler produces: the content written to its output
file and the summary returned to the caller. -/
structure Outcome where
  written : FileData
  result : TaskResult
deriving DecidableEq

/-- Handler A3 (`handle_count_wednesdays`): 404 when `/data/dates.txt` is
missing, otherwise count the Wednesday lines and write the decimal count. -/
def handle_count_wednesdays (input : Option String) : Except PyErr Outcome :=
  match input with
  | none => .error (.httpException 404 "File not found: /data/dates.txt")
  | some content =>
    .ok ⟨.text (toString (count_wednesdays (pyLines content))),
         .countWednesdays (count_wednesdays (pyLines content))⟩

/-- Handler A4 (`handle_sort_contacts`): 404 when `/data/contacts.json` is
missing, otherwise stable-sort by `(last_name, first_name)` and write the
sorted array as JSON. -/
def handle_sort_contacts (input : Option (List Contact)) : Except PyErr Outcome :=
  match input with
  | none => .error (.httpException 404 "Input file not found: /data/contacts.json")
  | some contacts =>
    .ok ⟨.jsonContacts (sorted_contacts contacts),
         .sortContacts (sorted_contacts contacts).length⟩

/-- Handler A9 (`handle_similar_comments`): 404 when `/data/comments.txt` is
missing, 400 when fewer than two non-empty lines, otherwise run the pairwise
scan and write the chosen pair joined by a newline. -/
def handle_similar_comments (input : Option String) : Except PyErr Outcome :=
  match input with
  | none => .error (.httpException 404 "File not found: /data/comments.txt")
  | some content =>
    if (commentsOf content).length < 2 then
      .error (.httpException 400 "Not enough comments to compare")
    else
      .ok ⟨.text ((bestPair (commentsOf content)).2.1 ++ "\n" ++ (bestPair (commentsOf content)).2.2),
           .similarComments (bestPair (commentsOf content)).1⟩

/-- Handler A10 (`handle_ticket_sales`): 404 when `/data/ticket-sales.db` is
missing, otherwise write `str(total)` of the Gold aggregate and return it. -/
def handle_ticket_sales (db : Option (List TicketRow)) : Except PyErr Outcome :=
  match db with
  | none => .error (.httpException 404 "Database file not found: /data/ticket-sales.db")
  | some rows =>
    .ok ⟨.text (pyStrOfSum (sumGold rows)), .ticketSales (sumGold rows)⟩

/-- The target of the dispatcher: one constructor per handler of the
`handle_task` keyword chain, plus `unknown` for the final `else`. -/
inductive Route where
  | datagen
  | formatFile
  | countWednesdays
  | sortContacts
  | recentLogs
  | extractHeaders
  | extractEmail
  | extractCard
  | similarComments
  | ticketSales
  | unknown
deriving DecidableEq

/-- The request-independent state a request runs against: text files under
`/data`, the parsed contacts file, the parsed tickets table (each `none` when
the file is absent), and the outcomes of the handlers that shell out, call
the network, or list directories (datagen, format, recent logs, extract
headers/email/card), which the repository delegates to external processes. -/
structure Env where
  files : String → Option String
  contacts : Option (List Contact)
  tickets : Option (List TicketRow)
  externalOutcome : Route → Except PyErr Outcome

/-- The ordered keyword chain of `handle_task` (src/main.py lines 47-70),
applied to the lowercased task text; the first matching predicate wins. -/
def dispatch (task : String) : Route :=
  if pyIn "datagen" (pyLower task) || pyIn "generate data" (pyLower task) then .datagen
  else if pyIn "format" (pyLower task) && pyIn "prettier" (pyLower task) then .formatFile
  else if pyIn "wednesday" (pyLower task) && pyIn "date" (pyLower task) then .countWednesdays
  else if pyIn "sort contacts" (pyLower task) then .sortContacts
  else if pyIn "recent logs" (pyLower task) then .recentLogs
  else if pyIn "extract headers" (pyLower task) then .extractHeaders
  else if pyIn "extract email" (pyLower task) then .extractEmail
  else if pyIn "extract card" (pyLower task) then .extractCard
  else if pyIn "similar comments" (pyLower task) || pyIn "most similar" (pyLower task) then
    .similarComments
  else if pyIn "ticket sales" (pyLower task) then .ticketSales
  else .unknown

/-- The dispatcher method `handle_task`: route the task text and run the
selected handler; an unmatched text raises
`ValueError(f"Unknown task: {task_description}")`. -/
def handle_task (env : Env) (task : String) : Except PyErr Outcome :=
  match dispatch task with
  | .countWednesdays => handle_count_wednesdays (env.files "/data/dates.txt")
  | .sortContacts => handle_sort_contacts env.contacts
  | .similarComments => handle_similar_comments (env.files "/data/comments.txt")
  | .ticketSales => handle_ticket_sales env.tickets
  | .unknown => .error (.valueError ("Unknown task: " ++ task))
  | r => env.externalOutcome r

/-- An HTTP response of the `POST /run` endpoint. -/
inductive RunResponse where
  | ok (result : Outcome)
  | err (statusCode : Nat) (detail : String)
deriving DecidableEq

/-- Python `str(e)` on the exceptions of the model: `str` of a `ValueError`
is its message, and Starlette defines `HTTPException.__str__` as
`f"{self.status_code}: {self.detail}"`. -/
def strOfExc : PyErr → String
  | .valueError msg => msg
  | .httpException statusCode detail => toString statusCode ++ ": " ++ detail

/-- The `POST /run` endpoint (src/main.py lines 238-246): `except ValueError`
re-raises with status 400 and the message; every other exception — including
a FastAPI `HTTPException`, which is not a `ValueError` — is caught by
`except Exception` and re-raised with status 500 and `str(e)`. -/
def run_task (env : Env) (task : String) : RunResponse :=
  match handle_task env task with
  | .ok r => .ok r
  | .error (.valueError msg) => .err 400 msg
  | .error e => .err 500 (strOfExc e)

/-- An HTTP response of the `GET /read` endpoint. -/
inductive ReadResponse where
  | ok (content : String)
  | err (statusCode : Nat) (detail : String)
deriving DecidableEq

/-- The `GET /read` endpoint (src/main.py lines 248-262): 400 unless the path
starts with `/data/`, then 404 when no such file exists, otherwise the file's
contents; the inner `except HTTPException` re-raises unchanged. -/
def read_file (files : String → Option String) (path : String) : ReadResponse :=
  if pyStartsWith path "/data/" then
    match files path with
    | some content => .ok content
    | none => .err 404 ("File not found: " ++ path)
  else .err 400 "Access denied: Path must be within /data directory"

/-- Error kind of the spec's Sandboxed File Accessor. -/
inductive FsError where
  | operationForbidden
deriving DecidableEq

/-- Modelled from the spec: `src/main.py` exposes no file-deletion
primitive anywhere (no handler deletes and none is reachable); the spec
states that deletion primitives are permanently disabled at the process
level and that any attempt fails with `OperationForbidden` regardless of
path. -/
def delete_file (p : String) : Except FsError Unit := .error .operationForbidden

/-- Modelled from the spec: recursive directory deletion, likewise disabled
for every argument. -/
def delete_dir_recursive (p : String) : Except FsError Unit := .error .operationForbidden

/-- A minimal environment for concrete endpoint evaluations: no files, no
contacts, no tickets, external handlers succeed vacuously. -/
def env0 : Env :=
  { files := fun _ => none, contacts := none, tickets := none,
    externalOutcome := fun _ => .ok ⟨.text "", .external⟩ }

/-- An environment whose `/data/comments.txt` holds a single non-empty
line. -/
def envOneComment : Env :=
  { files := fun p => if p = "/data/comments.txt" then some "only one comment\n" else none,
    contacts := none, tickets := none,
    externalOutcome := fun _ => .ok ⟨.text "", .external⟩ }

/-- A one-file store for exercising the `read` endpoint. -/
def files0 : String → Option String :=
  fun p => if p = "/data/notes.txt" then some "hi" else none

/-! ### Order lemmas for the contact comparison -/

theorem lexLtb_trans {a b c : List Char} (h1 : lexLtb a b = true) (h2 : lexLtb b c = true) :
    lexLtb a c = true := by
  induction a generalizing b c with
  | nil =>
    cases b with
    | nil => simp [lexLtb] at h1
    | cons y bs =>
      cases c with
      | nil => simp [lexLtb] at h2
      | cons z cs => simp [lexLtb]
  | cons x as ih =>
    cases b with
    | nil => simp [lexLtb] at h1
    | cons y bs =>
      cases c with
      | nil => simp [lexLtb] at h2
      | cons z cs =>
        simp only [lexLtb] at h1 h2 ⊢
        by_cases hxy : x < y
        · by_cases hyz : y < z
          · rw [if_pos (lt_trans hxy hyz)]
          · rw [if_neg hyz] at h2
            by_cases hzy : z < y
            · rw [if_pos hzy] at h2; exact absurd h2 (by simp)
            · have hyeq : y = z := le_antisymm (not_lt.mp hzy) (not_lt.mp hyz)
              rw [if_pos (hyeq ▸ hxy)]
        · rw [if_neg hxy] at h1
          by_cases hyx : y < x
          · rw [if_pos hyx] at h1; exact absurd h1 (by simp)
          · rw [if_neg hyx] at h1
            have hxeq : x = y := le_antisymm (not_lt.mp hyx) (not_lt.mp hxy)
            subst hxeq
            by_cases hxz : x < z
            · rw [if_pos hxz]
            · rw [if_neg hxz] at h2 ⊢
              by_cases hzx : z < x
              · rw [if_pos hzx] at h2; exact absurd h2 (by simp)
              · rw [if_neg hzx] at h2 ⊢; exact ih h1 h2

theorem lexLtb_total (a b : List Char) : lexLtb a b = true ∨ a = b ∨ lexLtb b a = true := by
  induction a generalizing b with
  | nil =>
    cases b with
    | nil => exact Or.inr (Or.inl rfl)
    | cons y bs => exact Or.inl (by simp [lexLtb])
  | cons x as ih =>
    cases b with
    | nil => exact Or.inr (Or.inr (by simp [lexLtb]))
    | cons y bs =>
      rcases lt_trichotomy x y with h | h | h
      · exact Or.inl (by simp [lexLtb, h])
      · subst h
        rcases ih bs with h1 | h1 | h1
        · exact Or.inl (by simp [lexLtb, lt_irrefl, h1])
        · exact Or.inr (Or.inl (by rw [h1]))
        · exact Or.inr (Or.inr (by simp [lexLtb, lt_irrefl, h1]))
      · exact Or.inr (Or.inr (by simp [lexLtb, h]))

theorem contactLeB_trans {a b c : Contact} (h1 : contactLeB a b = true)
    (h2 : contactLeB b c = true) : contactLeB a c = true := by
  simp only [contactLeB, Bool.or_eq_true, Bool.and_eq_true, beq_iff_eq] at h1 h2 ⊢
  rcases h1 with h1 | ⟨e1, h1⟩
  · rcases h2 with h2 | ⟨e2, h2⟩
    · exact Or.inl (lexLtb_trans h1 h2)
    · exact Or.inl (e2 ▸ h1)
  · rcases h2 with h2 | ⟨e2, h2⟩
    · exact Or.inl (e1.symm ▸ h2)
    · refine Or.inr ⟨e1.trans e2, ?_⟩
      rcases h1 with h1 | h1
      · rcases h2 with h2 | h2
        · exact Or.inl (lexLtb_trans h1 h2)
        · exact Or.inl (h2 ▸ h1)
      · rcases h2 with h2 | h2
        · exact Or.inl (h1.symm ▸ h2)
        · exact Or.inr (h1.trans h2)

theorem contactLeB_total (a b : Contact) : contactLeB a b = true ∨ contactLeB b a = true := by
  simp only [contactLeB, Bool.or_eq_true, Bool.and_eq_true, beq_iff_eq]
  rcases lexLtb_total (ckey a).1.data (ckey b).1.data with h | h | h
  · exact Or.inl (Or.inl h)
  · rcases lexLtb_total (ckey a).2.data (ckey b).2.data with h2 | h2 | h2
    · exact Or.inl (Or.inr ⟨h, Or.inl h2⟩)
    · exact Or.inl (Or.inr ⟨h, Or.inr h2⟩)
    · exact Or.inr (Or.inr ⟨h.symm, Or.inl h2⟩)
  · exact Or.inr (Or.inl h)

instance : IsTrans Contact contactR := ⟨fun _ _ _ => contactLeB_trans⟩

instance : IsTotal Contact contactR := ⟨fun a b => contactLeB_total a b⟩

theorem contactR_of_ckey_eq {a b : Contact} (h : ckey a = ckey b) : contactR a b := by
  unfold contactR contactLeB
  have h1 : (ckey a).1 = (ckey b).1 := by rw [h]
  have h2 : (ckey a).2 = (ckey b).2 := by rw [h]
  rw [h1, h2]
  simp

/-! ### Lemmas about the pairwise-scan selection loop -/

theorem stepPair_pos {best : ℚ} {b1 b2 x y : String} (h : best < ratioStrings x y) :
    stepPair (best, b1, b2) (x, y) = (ratioStrings x y, x, y) := by
  simp only [stepPair]
  rw [if_pos h]

theorem stepPair_neg {best : ℚ} {b1 b2 x y : String} (h : ¬ best < ratioStrings x y) :
    stepPair (best, b1, b2) (x, y) = (best, b1, b2) := by
  simp only [stepPair]
  rw [if_neg h]

theorem le_maxRL {l : List (String × String)} {p : String × String} (hp : p ∈ l) :
    ratioStrings p.1 p.2 ≤ maxRL l := by
  induction l with
  | nil => cases hp
  | cons q t ih =>
    rcases List.mem_cons.mp hp with h | h
    · subst h; exact le_max_left _ _
    · exact le_trans (ih h) (le_max_right _ _)

theorem maxRL_le {l : List (String × String)} {x : ℚ} (h0 : 0 ≤ x)
    (h : ∀ p ∈ l, ratioStrings p.1 p.2 ≤ x) : maxRL l ≤ x := by
  induction l with
  | nil => exact h0
  | cons q t ih =>
    exact max_le (h q (List.mem_cons_self q t)) (ih fun p hp => h p (List.mem_cons_of_mem q hp))

theorem foldl_stepPair_const {l : List (String × String)} :
    ∀ {acc : ℚ × String × String}, (∀ p ∈ l, ratioStrings p.1 p.2 ≤ acc.1) →
      l.foldl stepPair acc = acc := by
  induction l with
  | nil => intro acc _; rfl
  | cons q t ih =>
    intro acc h
    obtain ⟨best, b1, b2⟩ := acc
    obtain ⟨x, y⟩ := q
    rw [List.foldl_cons, stepPair_neg (not_lt.mpr (h (x, y) (List.mem_cons_self _ _)))]
    exact ih fun p hp => h p (List.mem_cons_of_mem _ hp)

theorem foldl_stepPair_spec (l : List (String × String)) :
    ∀ acc : ℚ × String × String, 0 ≤ acc.1 →
      (∃ p ∈ l, acc.1 < ratioStrings p.1 p.2) →
      (l.foldl stepPair acc).1 = maxRL l ∧
        l.find? (fun p => ratioStrings p.1 p.2 == maxRL l) =
          some ((l.foldl stepPair acc).2.1, (l.foldl stepPair acc).2.2) := by
  induction l with
  | nil => intro acc _ hex; simp at hex
  | cons q t ih =>
    intro acc h0 hex
    obtain ⟨x, y⟩ := q
    obtain ⟨best, b1, b2⟩ := acc
    rw [List.foldl_cons]
    by_cases hup : best < ratioStrings x y
    · rw [stepPair_pos hup]
      by_cases hrest : ∃ p ∈ t, ratioStrings x y < ratioStrings p.1 p.2
      · have h0q : (0 : ℚ) ≤ ratioStrings x y := le_of_lt (lt_of_le_of_lt h0 hup)
        have IH := ih (ratioStrings x y, x, y) h0q hrest
        obtain ⟨p1, hp1, hlt1⟩ := hrest
        have hmt : ratioStrings x y < maxRL t := lt_of_lt_of_le hlt1 (le_maxRL hp1)
        have hmax : maxRL ((x, y) :: t) = maxRL t := max_eq_right (le_of_lt hmt)
        refine ⟨by rw [hmax]; exact IH.1, ?_⟩
        rw [hmax, List.find?_cons_of_neg]
        · exact IH.2
        · simp only [beq_iff_eq]
          exact hmt.ne
      · push_neg at hrest
        have hfold : t.foldl stepPair (ratioStrings x y, x, y) = (ratioStrings x y, x, y) :=
          foldl_stepPair_const fun p hp => hrest p hp
        rw [hfold]
        have hmax : maxRL ((x, y) :: t) = ratioStrings x y :=
          max_eq_left (maxRL_le (le_of_lt (lt_of_le_of_lt h0 hup)) hrest)
        refine ⟨by rw [hmax], ?_⟩
        rw [hmax, List.find?_cons_of_pos]
        simp
    · rw [stepPair_neg hup]
      have hex2 : ∃ p ∈ t, best < ratioStrings p.1 p.2 := by
        obtain ⟨p, hp, hlt⟩ := hex
        rcases List.mem_cons.mp hp with h | h
        · rw [h] at hlt; exact absurd hlt hup
        · exact ⟨p, h, hlt⟩
      have IH := ih (best, b1, b2) h0 hex2
      obtain ⟨p1, hp1, hlt1⟩ := hex2
      have hxy : ratioStrings x y < maxRL t :=
        lt_of_le_of_lt (not_lt.mp hup) (lt_of_lt_of_le hlt1 (le_maxRL hp1))
      have hmax : maxRL ((x, y) :: t) = maxRL t := max_eq_right (le_of_lt hxy)
      refine ⟨by rw [hmax]; exact IH.1, ?_⟩
      rw [hmax, List.find?_cons_of_neg]
      · exact IH.2
      · simp only [beq_iff_eq]
        exact hxy.ne

theorem handle_similar_comments_of_ge2 {content : String}
    (h2 : 2 ≤ (commentsOf content).length) :
    handle_similar_comments (some content) =
      .ok ⟨.text ((bestPair (commentsOf content)).2.1 ++ "\n"
              ++ (bestPair (commentsOf content)).2.2),
           .similarComments (bestPair (commentsOf content)).1⟩ := by
  simp only [handle_similar_comments]
  rw [if_neg (Nat.not_lt.mpr h2)]

/-! ### A closed form for the Wednesday counter -/

theorem count_wednesdays_eq_countP (lines : List String) :
    count_wednesdays lines = lines.countP (fun raw =>
      match parseDate (pyStrip raw) with
      | some d => pyWeekday d == 2
      | none => false) := by
  induction lines with
  | nil => rfl
  | cons raw rest ih =>
    rw [List.countP_cons]
    simp only [count_wednesdays]
    by_cases hb : (pyStrip raw).data.isEmpty
    · rw [if_pos hb, ih]
      have he : pyStrip raw = "" := by
        cases hs : pyStrip raw with
        | mk data => rw [hs] at hb; simp at hb; rw [hb]
      have hp : (match parseDate (pyStrip raw) with
          | some d => pyWeekday d == 2
          | none => false) = false := by rw [he]; rfl
      simp [hp]
    · rw [if_neg hb]
      cases hpd : parseDate (pyStrip raw) with
      | none => rw [ih]; simp [hpd]
      | some d =>
        rw [ih]
        cases hw : pyWeekday d == 2 <;> simp [hpd, hw, Nat.add_comm]

/-! ### Concrete similarity-ratio values

`difflib` on `"hello world"` and `"hello world!"` matches the whole first
string (11 characters), so the ratio is `2·11/23`; against `"goodbye"` the
Ratcliff-Obershelp recursion matches only the first-encountered longest
block, the single character `e`, giving `2·1/18` and `2·1/19`; `"ab"` and
`"cd"` share nothing. -/

theorem ratio_hello_pair : ratioStrings "hello world" "hello world!" = 22 / 23 := by
  have hm : matchTotal "hello world".data "hello world!".data = 11 := by decide
  have ha : ("hello world".data).length = 11 := by decide
  have hb : ("hello world!".data).length = 12 := by decide
  unfold ratioStrings ratioChars
  rw [hm, ha, hb, if_neg (by decide)]
  norm_num

theorem ratio_hw_goodbye : ratioStrings "hello world" "goodbye" = 1 / 9 := by
  have hm : matchTotal "hello world".data "goodbye".data = 1 := by decide
  have ha : ("hello world".data).length = 11 := by decide
  have hb : ("goodbye".data).length = 7 := by decide
  unfold ratioStrings ratioChars
  rw [hm, ha, hb, if_neg (by decide)]
  norm_num

theorem ratio_hwx_goodbye : ratioStrings "hello world!" "goodbye" = 2 / 19 := by
  have hm : matchTotal "hello world!".data "goodbye".data = 1 := by decide
  have ha : ("hello world!".data).length = 12 := by decide
  have hb : ("goodbye".data).length = 7 := by decide
  unfold ratioStrings ratioChars
  rw [hm, ha, hb, if_neg (by decide)]
  norm_num

theorem ratio_ab_cd : ratioStrings "ab" "cd" = 0 := by
  have hm : matchTotal "ab".data "cd".data = 0 := by decide
  have ha : ("ab".data).length = 2 := by decide
  have hb : ("cd".data).length = 2 := by decide
  unfold ratioStrings ratioChars
  rw [hm, ha, hb, if_neg (by decide)]
  norm_num

theorem bestPair_hello :
    bestPair ["hello world", "hello world!", "goodbye"] =
      (22 / 23, "hello world", "hello world!") := by
  have h1 : (0 : ℚ) < ratioStrings "hello world" "hello world!" := by
    rw [ratio_hello_pair]; norm_num
  have h2 : ¬ ratioStrings "hello world" "hello world!" < ratioStrings "hello world" "goodbye" := by
    rw [ratio_hello_pair, ratio_hw_goodbye]; norm_num
  have h3 : ¬ ratioStrings "hello world" "hello world!" <
      ratioStrings "hello world!" "goodbye" := by
    rw [ratio_hello_pair, ratio_hwx_goodbye]; norm_num
  show List.foldl stepPair (0, "", "")
      (scanPairs ["hello world", "hello world!", "goodbye"]) = _
  rw [show scanPairs ["hello world", "hello world!", "goodbye"] =
        [("hello world", "hello world!"), ("hello world", "goodbye"),
         ("hello world!", "goodbye")] from rfl,
    List.foldl_cons, List.foldl_cons, List.foldl_cons, List.foldl_nil,
    stepPair_pos h1, stepPair_neg h2, stepPair_neg h3, ratio_hello_pair]

theorem bestPair_ab_cd : bestPair (commentsOf "ab\ncd") = (0, "", "") := by
  have h1 : ¬ (0 : ℚ) < ratioStrings "ab" "cd" := by rw [ratio_ab_cd]; norm_num
  show List.foldl stepPair (0, "", "") (scanPairs (commentsOf "ab\ncd")) = _
  rw [show scanPairs (commentsOf "ab\ncd") = [("ab", "cd")] from by decide,
    List.foldl_cons, List.foldl_nil, stepPair_neg h1]

theorem maxRL_hello :
    maxRL (scanPairs (commentsOf "hello world\nhello world!\ngoodbye")) = 22 / 23 := by
  rw [show scanPairs (commentsOf "hello world\nhello world!\ngoodbye") =
        [("hello world", "hello world!"), ("hello world", "goodbye"),
         ("hello world!", "goodbye")] from by decide]
  show max (ratioStrings "hello world" "hello world!")
      (max (ratioStrings "hello world" "goodbye")
        (max (ratioStrings "hello world!" "goodbye") 0)) = 22 / 23
  rw [ratio_hello_pair, ratio_hw_goodbye, ratio_hwx_goodbye,
    show max (2 / 19 : ℚ) 0 = 2 / 19 from max_eq_left (by norm_num),
    show max (1 / 9 : ℚ) (2 / 19) = 1 / 9 from max_eq_left (by norm_num)]
  exact max_eq_left (by norm_num)

theorem find_hello :
    (scanPairs (commentsOf "hello world\nhello world!\ngoodbye")).find?
        (fun p => ratioStrings p.1 p.2 ==
          maxRL (scanPairs (commentsOf "hello world\nhello world!\ngoodbye"))) =
      some ("hello world", "hello world!") := by
  rw [maxRL_hello,
    show scanPairs (commentsOf "hello world\nhello world!\ngoodbye") =
        [("hello world", "hello world!"), ("hello world", "goodbye"),
         ("hello world!", "goodbye")] from by decide,
    List.find?_cons_of_pos]
  simp [ratio_hello_pair]

/-! ### The claims -/

/-- C1 (code bug at the claimed behaviour): with `/data/comments.txt` holding
a single non-empty comment line, the task `"most similar"` routes to the
similar-comments handler, which raises `HTTPException(400, "Not enough
comments to compare")` — a BadRequest — yet `POST /run` answers with status
500 and detail `"400: Not enough comments to compare"`: the front's
`except Exception` clause catches the handler's `HTTPException` (it is not a
`ValueError`) and re-raises it as a generic server error, so BadRequest-style
handler failures never reach the client as 4xx. -/
theorem run_task_bad_request_maps_to_500 :
    handle_task envOneComment "most similar" =
        .error (.httpException 400 "Not enough comments to compare")
    ∧ run_task envOneComment "most similar" =
        .err 500 "400: Not enough comments to compare" := by
  constructor
  · decide
  · decide

/-- C2 counterexample: the task text `"sort my contact list"` lowercases to
itself and contains both `"sort"` and `"contact"`, yet the dispatcher sends
it to no handler at all (the predicate in the source is the single substring
`"sort contacts"`), so the claim as stated is false. -/
theorem dispatch_sort_contact_counterexample :
    pyIn "sort" (pyLower "sort my contact list") = true
    ∧ pyIn "contact" (pyLower "sort my contact list") = true
    ∧ dispatch "sort my contact list" = Route.unknown
    ∧ Route.unknown ≠ Route.sortContacts := by
  refine ⟨by decide, by decide, by decide, by decide⟩

/-- C2 (amended): a task text whose lowercased form contains the substring
`"sort contacts"`, and which matches none of the three earlier predicates of
the ordered chain (`"datagen"`/`"generate data"`; `"format"` and
`"prettier"`; `"wednesday"` and `"date"`), routes to the sort-contacts
handler. -/
theorem dispatch_sort_contacts_amended (task : String)
    (h : pyIn "sort contacts" (pyLower task) = true)
    (h1 : pyIn "datagen" (pyLower task) = false)
    (h2 : pyIn "generate data" (pyLower task) = false)
    (h3 : pyIn "format" (pyLower task) = false ∨ pyIn "prettier" (pyLower task) = false)
    (h4 : pyIn "wednesday" (pyLower task) = false ∨ pyIn "date" (pyLower task) = false) :
    dispatch task = Route.sortContacts := by
  rcases h3 with h3 | h3 <;> rcases h4 with h4 | h4 <;>
    simp [dispatch, h, h1, h2, h3, h4]

/-- Witness for the amended C2 at a concrete task text. -/
theorem dispatch_sort_contacts_amended_witness :
    pyIn "sort contacts" (pyLower "Sort contacts by last name") = true
    ∧ dispatch "Sort contacts by last name" = Route.sortContacts :=
  ⟨by decide,
   dispatch_sort_contacts_amended "Sort contacts by last name" (by decide) (by decide)
     (by decide) (Or.inl (by decide)) (Or.inl (by decide))⟩

/-- C3: a task text matched by none of the dispatcher's ordered predicates
makes `handle_task` raise `ValueError("Unknown task: <text>")` with the
original text, and `POST /run` answers 400 with detail exactly
`"Unknown task: <text>"`. -/
theorem unknown_task_maps_to_400 (env : Env) (task : String)
    (h : dispatch task = Route.unknown) :
    handle_task env task = .error (.valueError ("Unknown task: " ++ task))
    ∧ run_task env task = .err 400 ("Unknown task: " ++ task) := by
  have h1 : handle_task env task = .error (.valueError ("Unknown task: " ++ task)) := by
    unfold handle_task
    rw [h]
  refine ⟨h1, ?_⟩
  unfold run_task
  rw [h1]

/-- Witness for C3 at a concrete unmatched task text and environment. -/
theorem unknown_task_maps_to_400_witness :
    dispatch "hello" = Route.unknown
    ∧ run_task env0 "hello" = .err 400 ("Unknown task: " ++ "hello") :=
  ⟨by decide, (unknown_task_maps_to_400 env0 "hello" (by decide)).2⟩

/-- C4: `GET /read` answers 400 when the path does not start with the sandbox
root `/data/`, 404 when the path is under the root but names no existing
file, and 200 with the file's exact contents otherwise. -/
theorem read_file_cases (files : String → Option String) (path : String) :
    (pyStartsWith path "/data/" = false →
      read_file files path = .err 400 "Access denied: Path must be within /data directory")
    ∧ (pyStartsWith path "/data/" = true → files path = none →
      read_file files path = .err 404 ("File not found: " ++ path))
    ∧ (∀ content, pyStartsWith path "/data/" = true → files path = some content →
      read_file files path = .ok content) := by
  refine ⟨fun h => ?_, fun h hf => ?_, fun content h hf => ?_⟩
  · simp [read_file, h]
  · simp [read_file, h, hf]
  · simp [read_file, h, hf]

/-- Witness for C4: all three branches at concrete paths over a one-file
store. -/
theorem read_file_cases_witness :
    read_file files0 "/etc/passwd" = .err 400 "Access denied: Path must be within /data directory"
    ∧ read_file files0 "/data/missing.txt" = .err 404 ("File not found: " ++ "/data/missing.txt")
    ∧ read_file files0 "/data/notes.txt" = .ok "hi" :=
  ⟨(read_file_cases files0 "/etc/passwd").1 (by decide),
   (read_file_cases files0 "/data/missing.txt").2.1 (by decide) (by decide),
   (read_file_cases files0 "/data/notes.txt").2.2 "hi" (by decide) (by decide)⟩

/-- C5: the count-Wednesdays handler strips each line, skips blank lines,
parses the rest as `%Y-%m-%d` skipping the ones that fail, counts the lines
whose weekday is Wednesday, writes the decimal count to the output file and
returns it; on the sample lines the count is 2 (2024-01-03 and 2024-01-10
are both Wednesdays, the malformed line is ignored). -/
theorem count_wednesdays_spec :
    (∀ content, handle_count_wednesdays (some content) =
        .ok ⟨.text (toString (count_wednesdays (pyLines content))),
             .countWednesdays (count_wednesdays (pyLines content))⟩)
    ∧ (∀ lines, count_wednesdays lines = lines.countP (fun raw =>
        match parseDate (pyStrip raw) with
        | some d => pyWeekday d == 2
        | none => false))
    ∧ count_wednesdays ["2024-01-03", "not-a-date", "2024-01-10"] = 2 :=
  ⟨fun _ => rfl, count_wednesdays_eq_countP, by decide⟩

/-- C6 (amended): whenever some pair of comment lines has nonzero similarity
ratio, the handler selects the maximal-ratio pair, ties broken in favour of
the first-encountered pair in scan order — the selected pair is the first
pair in scan order whose ratio equals the maximum — writes the two lines
newline-joined and returns the ratio.  (When every pair has ratio exactly 0
the loop instead keeps the initial pair of empty strings; that corner is the
subject of the zero-ratio counterexample and of the all-zero claim.)  On the
sample input the selected pair is the first two lines and its ratio 22/23
strictly exceeds that of either pair involving `"goodbye"`. -/
theorem similar_comments_selects_first_max :
    (∀ content q, 2 ≤ (commentsOf content).length →
      (∃ p ∈ scanPairs (commentsOf content), 0 < ratioStrings p.1 p.2) →
      (scanPairs (commentsOf content)).find?
          (fun p => ratioStrings p.1 p.2 == maxRL (scanPairs (commentsOf content))) = some q →
      handle_similar_comments (some content) =
        .ok ⟨.text (q.1 ++ "\n" ++ q.2),
             .similarComments (maxRL (scanPairs (commentsOf content)))⟩)
    ∧ handle_similar_comments (some "hello world\nhello world!\ngoodbye") =
        .ok ⟨.text "hello world\nhello world!", .similarComments (22 / 23)⟩
    ∧ ratioStrings "hello world" "goodbye" < ratioStrings "hello world" "hello world!"
    ∧ ratioStrings "hello world!" "goodbye" < ratioStrings "hello world" "hello world!" := by
  refine ⟨?_, ?_, ?_, ?_⟩
  · intro content q h2 hex hfind
    rw [handle_similar_comments_of_ge2 h2]
    have hspec := foldl_stepPair_spec (scanPairs (commentsOf content)) (0, "", "") le_rfl hex
    have hq : ((bestPair (commentsOf content)).2.1, (bestPair (commentsOf content)).2.2) = q :=
      Option.some.inj (hspec.2.symm.trans hfind)
    obtain rfl := hq.symm
    have hval : (bestPair (commentsOf content)).1 = maxRL (scanPairs (commentsOf content)) :=
      hspec.1
    rw [hval]
  · have hc : commentsOf "hello world\nhello world!\ngoodbye" =
        ["hello world", "hello world!", "goodbye"] := by decide
    rw [handle_similar_comments_of_ge2 (by rw [hc]; decide), hc, bestPair_hello]
    rfl
  · rw [ratio_hello_pair, ratio_hw_goodbye]; norm_num
  · rw [ratio_hello_pair, ratio_hwx_goodbye]; norm_num

/-- Witness for the amended C6: the general selection statement applied at
the sample comments file, every hypothesis discharged concretely. -/
theorem similar_comments_selects_first_max_witness :
    2 ≤ (commentsOf "hello world\nhello world!\ngoodbye").length
    ∧ handle_similar_comments (some "hello world\nhello world!\ngoodbye") =
        .ok ⟨.text ("hello world" ++ "\n" ++ "hello world!"),
             .similarComments
               (maxRL (scanPairs (commentsOf "hello world\nhello world!\ngoodbye")))⟩ := by
  refine ⟨by decide, ?_⟩
  have hpos : (0 : ℚ) < ratioStrings "hello world" "hello world!" := by
    rw [ratio_hello_pair]; norm_num
  exact similar_comments_selects_first_max.1 "hello world\nhello world!\ngoodbye"
    ("hello world", "hello world!") (by decide)
    ⟨("hello world", "hello world!"), by decide, hpos⟩ find_hello

/-- C6 counterexample: on the comments file `"ab\ncd"` every scanned pair has
ratio 0; the first-encountered maximal-ratio pair among the scanned pairs is
`("ab", "cd")`, yet the handler writes the pair of empty strings — a pair of
lines it never scanned — so the claim that it always selects a maximal pair
of comment lines is false as stated. -/
theorem similar_comments_zero_counterexample :
    2 ≤ (commentsOf "ab\ncd").length
    ∧ maxRL (scanPairs (commentsOf "ab\ncd")) = 0
    ∧ (scanPairs (commentsOf "ab\ncd")).find?
        (fun p => ratioStrings p.1 p.2 == maxRL (scanPairs (commentsOf "ab\ncd"))) =
      some ("ab", "cd")
    ∧ handle_similar_comments (some "ab\ncd") =
        .ok ⟨.text ("" ++ "\n" ++ ""), .similarComments 0⟩
    ∧ FileData.text ("" ++ "\n" ++ "") ≠ FileData.text ("ab" ++ "\n" ++ "cd") := by
  have hs : scanPairs (commentsOf "ab\ncd") = [("ab", "cd")] := by decide
  have hmax : maxRL (scanPairs (commentsOf "ab\ncd")) = 0 := by
    rw [hs]
    show max (ratioStrings "ab" "cd") 0 = 0
    rw [ratio_ab_cd]
    exact max_self 0
  refine ⟨by decide, hmax, ?_, ?_, by decide⟩
  · rw [hmax, hs, List.find?_cons_of_pos]
    simp [ratio_ab_cd]
  · rw [handle_similar_comments_of_ge2 (by decide), bestPair_ab_cd]

/-- C7: the sort-contacts handler stable-sorts the array by the key
`(last_name, first_name)` with a missing field read as the empty string —
the output is sorted for the key order, is a permutation of the input, and
any two records with equal keys keep their relative order — writes the
sorted array as JSON, and on the sample input orders the A/A record before
the B/Z record. -/
theorem sort_contacts_spec :
    (∀ cs, List.Sorted contactR (sorted_contacts cs))
    ∧ (∀ cs, (sorted_contacts cs).Perm cs)
    ∧ (∀ (a b : Contact) (cs : List Contact), ckey a = ckey b →
        List.Sublist [a, b] cs → List.Sublist [a, b] (sorted_contacts cs))
    ∧ (∀ cs, handle_sort_contacts (some cs) =
        .ok ⟨.jsonContacts (sorted_contacts cs), .sortContacts (sorted_contacts cs).length⟩)
    ∧ handle_sort_contacts (some [⟨some "B", some "Z", []⟩, ⟨some "A", some "A", []⟩]) =
        .ok ⟨.jsonContacts [⟨some "A", some "A", []⟩, ⟨some "B", some "Z", []⟩],
             .sortContacts 2⟩ :=
  ⟨fun cs => List.sorted_insertionSort contactR cs,
   fun cs => List.perm_insertionSort contactR cs,
   fun _ _ cs hk hsub => List.pair_sublist_insertionSort (contactR_of_ckey_eq hk) hsub,
   fun _ => rfl,
   by decide⟩

/-- Witness for C7: the stability conjunct applied to two concrete records
with equal keys but different extra fields. -/
theorem sort_contacts_spec_witness :
    ckey ⟨some "A", some "K", [("email", "a")]⟩ = ckey ⟨some "A", some "K", []⟩
    ∧ List.Sublist [(⟨some "A", some "K", [("email", "a")]⟩ : Contact), ⟨some "A", some "K", []⟩]
        (sorted_contacts [⟨some "A", some "K", [("email", "a")]⟩, ⟨some "A", some "K", []⟩]) :=
  ⟨rfl, sort_contacts_spec.2.2.1 _ _ _ rfl (List.Sublist.refl _)⟩

/-- C8 (modelled from the spec; the repository exposes no deletion code):
both deletion primitives fail with `OperationForbidden` for every path. -/
theorem deletion_always_forbidden :
    ∀ p : String, delete_file p = .error FsError.operationForbidden
      ∧ delete_dir_recursive p = .error FsError.operationForbidden :=
  fun _ => ⟨rfl, rfl⟩

/-- C9: with at least two non-empty comment lines but every scanned pair of
similarity ratio exactly 0, the strict-improvement loop never updates, so the
handler reports success, writes the two initial empty strings joined by a
newline (the single character `"\n"`), and returns similarity ratio 0. -/
theorem similar_comments_all_zero (content : String)
    (h2 : 2 ≤ (commentsOf content).length)
    (h0 : ∀ p ∈ scanPairs (commentsOf content), ratioStrings p.1 p.2 = 0) :
    handle_similar_comments (some content) = .ok ⟨.text "\n", .similarComments 0⟩ := by
  rw [handle_similar_comments_of_ge2 h2]
  have hb : bestPair (commentsOf content) = (0, "", "") := by
    show List.foldl stepPair (0, "", "") (scanPairs (commentsOf content)) = (0, "", "")
    exact foldl_stepPair_const fun p hp => le_of_eq (h0 p hp)
  rw [hb]
  rfl

/-- Witness for C9 at the two-comment file `"ab\ncd"`, whose only pair has
ratio 0. -/
theorem similar_comments_all_zero_witness :
    2 ≤ (commentsOf "ab\ncd").length
    ∧ handle_similar_comments (some "ab\ncd") = .ok ⟨.text "\n", .similarComments 0⟩ := by
  have hz : ∀ p ∈ scanPairs (commentsOf "ab\ncd"), ratioStrings p.1 p.2 = 0 := by
    intro p hp
    have hs : scanPairs (commentsOf "ab\ncd") = [("ab", "cd")] := by decide
    rw [hs] at hp
    have hp2 : p = ("ab", "cd") := by simpa using hp
    rw [hp2]
    exact ratio_ab_cd
  exact ⟨by decide, similar_comments_all_zero "ab\ncd" (by decide) hz⟩

/-- C10: when the tickets table exists but has no row of type `Gold`, the SQL
`SUM` yields NULL, the handler writes the literal string `"None"` to the
output file, and reports success with `total_sales` null. -/
theorem ticket_sales_no_gold (rows : List TicketRow)
    (h : ∀ r ∈ rows, r.type ≠ "Gold") :
    handle_ticket_sales (some rows) = .ok ⟨.text "None", .ticketSales none⟩ := by
  have hg : rows.filter (fun r => r.type == "Gold") = [] := by
    rw [List.filter_eq_nil_iff]
    intro r hr
    simpa using h r hr
  simp only [handle_ticket_sales, sumGold, hg]
  rfl

/-- Witness for C10 at a one-row table whose only type is `Silver`. -/
theorem ticket_sales_no_gold_witness :
    handle_ticket_sales (some [⟨"Silver", 3, 5⟩]) = .ok ⟨.text "None", .ticketSales none⟩ :=
  ticket_sales_no_gold [⟨"Silver", 3, 5⟩] (by decide)

end Agent
